import Mathlib

/-!
Verification of the bumblebee VM-lifecycle orchestrator against its
natural-language specification.

This file is a shallow embedding of the delete/archive workflow module
`vm_manager/vm_functions/delete_vm.py`, the volume-reuse validation of
`vm_manager/vm_functions/create_vm.py`, the source-volume selection step
`_get_source_volume` of the same module, and the cloud-connector status
translation layer (`vm_manager/cloud/connector/objects.py` and
`vm_manager/cloud/connector/openstack.py`).

Embedding conventions:
* database rows (Volume, Instance, VMStatus, Expiration) are explicit records,
  and the database's Expiration table is an explicit store passed in and out of
  every step (steps that never touch it return it unchanged);
* the remote cloud's answers for one step invocation are a `Cloud` record of
  oracle values: Python's three-valued `Optional[bool]` existence results are
  `Option Bool` (`none` = the remote call itself failed, "unknown");
* a job handed to the delay scheduler (django_rq `enqueue_in`) is a `Sched`
  value in the step's result; `Sched.none` means nothing was scheduled;
* wall-clock time is a natural number of seconds passed in as `now`;
* Python function names keep their source names with the leading underscore
  dropped (Lean reserves identifiers starting with `_`).
-/

/-- Workflow-result vocabulary (`vm_manager/constants.py`: `WF_CONTINUE`,
`WF_SUCCESS`, `WF_FAIL`, `WF_RETRY`, `WF_SKIP`). -/
inductive WF
| CONTINUE
| SUCCESS
| FAIL
| RETRY
| SKIP
deriving DecidableEq

/-- Internal server status enum (`objects.py`, class `ServerStatus`). -/
inductive ServerStatus
| UNKNOWN
| ERROR
| DELETED
| ACTIVE
| BUILD
| REBUILD
| RESIZE
| VERIFY_RESIZE
| MIGRATING
| RESCUE
| REVERT_RESIZE
| SHELVED
| SHELVED_OFFLOADED
| SOFT_DELETED
| PAUSED
| SUSPENDED
| SHUTOFF
| REBOOT
| HARD_REBOOT
| PASSWORD
deriving DecidableEq

/-- Internal volume status enum (`objects.py`, class `VolumeStatus`). -/
inductive VolumeStatus
| UNKNOWN
| CREATING
| AVAILABLE
| IN_USE
| DELETING
| ERROR
| ERROR_DELETING
| ERROR_MANAGING
| ERROR_RESTORING
| ERROR_BACKING_UP
| ERROR_EXTENDING
| MANAGING
| ATTACHING
| DETACHING
| MAINTENANCE
| RESTORING_BACKUP
| RESERVED
| AWAITING_TRANSFER
| BACKING_UP
| DOWNLOADING
| UPLOADING
| RETYPING
| EXTENDING
deriving DecidableEq

/-- Expiration stages (`vm_manager/models.py` constants `EXP_EXPIRING`,
`EXP_EXPIRY_COMPLETED`, `EXP_EXPIRY_FAILED`, `EXP_EXPIRY_FAILED_RETRYABLE`,
as imported by `delete_vm.py`). -/
inductive ExpStage
| EXP_EXPIRING
| EXP_EXPIRY_COMPLETED
| EXP_EXPIRY_FAILED
| EXP_EXPIRY_FAILED_RETRYABLE
deriving DecidableEq

/-- VMStatus status values (`vm_manager/constants.py` as used by the embedded
modules). -/
inductive VMStatusValue
| NO_VM
| VM_WAITING
| VM_CREATING
| VM_OKAY
| VM_RESIZING
| VM_SUPERSIZED
| VM_SHELVED
| VM_ERROR
| VM_MISSING
deriving DecidableEq

/-- Python rendering of a `ServerStatus` member inside an f-string
(`f"{status}"` prints `ServerStatus.PAUSED` and so on). -/
def ServerStatus.pyStr : ServerStatus → String
| .UNKNOWN => "ServerStatus.UNKNOWN"
| .ERROR => "ServerStatus.ERROR"
| .DELETED => "ServerStatus.DELETED"
| .ACTIVE => "ServerStatus.ACTIVE"
| .BUILD => "ServerStatus.BUILD"
| .REBUILD => "ServerStatus.REBUILD"
| .RESIZE => "ServerStatus.RESIZE"
| .VERIFY_RESIZE => "ServerStatus.VERIFY_RESIZE"
| .MIGRATING => "ServerStatus.MIGRATING"
| .RESCUE => "ServerStatus.RESCUE"
| .REVERT_RESIZE => "ServerStatus.REVERT_RESIZE"
| .SHELVED => "ServerStatus.SHELVED"
| .SHELVED_OFFLOADED => "ServerStatus.SHELVED_OFFLOADED"
| .SOFT_DELETED => "ServerStatus.SOFT_DELETED"
| .PAUSED => "ServerStatus.PAUSED"
| .SUSPENDED => "ServerStatus.SUSPENDED"
| .SHUTOFF => "ServerStatus.SHUTOFF"
| .REBOOT => "ServerStatus.REBOOT"
| .HARD_REBOOT => "ServerStatus.HARD_REBOOT"
| .PASSWORD => "ServerStatus.PASSWORD"

/-- Python rendering of a `VolumeStatus` member inside an f-string. -/
def VolumeStatus.pyStr : VolumeStatus → String
| .UNKNOWN => "VolumeStatus.UNKNOWN"
| .CREATING => "VolumeStatus.CREATING"
| .AVAILABLE => "VolumeStatus.AVAILABLE"
| .IN_USE => "VolumeStatus.IN_USE"
| .DELETING => "VolumeStatus.DELETING"
| .ERROR => "VolumeStatus.ERROR"
| .ERROR_DELETING => "VolumeStatus.ERROR_DELETING"
| .ERROR_MANAGING => "VolumeStatus.ERROR_MANAGING"
| .ERROR_RESTORING => "VolumeStatus.ERROR_RESTORING"
| .ERROR_BACKING_UP => "VolumeStatus.ERROR_BACKING_UP"
| .ERROR_EXTENDING => "VolumeStatus.ERROR_EXTENDING"
| .MANAGING => "VolumeStatus.MANAGING"
| .ATTACHING => "VolumeStatus.ATTACHING"
| .DETACHING => "VolumeStatus.DETACHING"
| .MAINTENANCE => "VolumeStatus.MAINTENANCE"
| .RESTORING_BACKUP => "VolumeStatus.RESTORING_BACKUP"
| .RESERVED => "VolumeStatus.RESERVED"
| .AWAITING_TRANSFER => "VolumeStatus.AWAITING_TRANSFER"
| .BACKING_UP => "VolumeStatus.BACKING_UP"
| .DOWNLOADING => "VolumeStatus.DOWNLOADING"
| .UPLOADING => "VolumeStatus.UPLOADING"
| .RETYPING => "VolumeStatus.RETYPING"
| .EXTENDING => "VolumeStatus.EXTENDING"

/-- One Expiration row: `stage` and `stage_date` (`vm_manager/models.py`). -/
structure ExpirationRec where
  stage : ExpStage
  stage_date : Nat
deriving DecidableEq

/-- The Expiration table, keyed by primary key. -/
def ExpStore := Nat → ExpirationRec

/-- Save an Expiration row (`expiration.save()`). -/
def setExp (s : ExpStore) (pk : Nat) (e : ExpirationRec) : ExpStore :=
  fun q => if q = pk then e else s q

/-- A Volume row, with the fields read or written by the embedded modules.
`expiration` / `backup_expiration` are `Option` primary keys into the
Expiration store. -/
structure VolumeRec where
  id : Nat
  deleted : Option Nat
  marked_for_deletion : Option Nat
  backup_id : Option Nat
  archived_at : Option Nat
  expires : Option Nat
  backup_expires : Option Nat
  error_message : Option String
  expiration : Option Nat
  backup_expiration : Option Nat
deriving DecidableEq

/-- An Instance row.  `boot_volume` is the owned Volume row. -/
structure InstanceRec where
  id : Nat
  guac_connection : Bool
  boot_volume : VolumeRec
  marked_for_deletion : Option Nat
  deleted : Option Nat
  error_message : Option String
deriving DecidableEq

/-- A VMStatus row. -/
structure VMStatusRec where
  status : VMStatusValue
  status_progress : Nat
  status_message : String
deriving DecidableEq

/-- Modelled from the spec: `Volume.error` (in `vm_manager/models.py`, which is
not in the corpus) records the durable diagnostic on the row's
`error_message` (spec section 7: "Instance/Volume.error_message carries the
durable diagnostic"). -/
def VolumeRec.error (v : VolumeRec) (msg : String) : VolumeRec :=
  { v with error_message := some msg }

/-- Modelled from the spec: `Instance.error` (in `vm_manager/models.py`, which
is not in the corpus) records the diagnostic on `error_message`; with
`gone=True` the instance is additionally marked deleted (spec section 4.3:
"if the remote server is confirmed absent, mark deleted immediately"). -/
def InstanceRec.error (i : InstanceRec) (msg : String) (gone : Bool) (now : Nat) :
    InstanceRec :=
  { i with error_message := some msg
           deleted := if gone then some now else i.deleted }

/-- The cloud connector's answers during one step invocation.  Existence
checks and delete calls return Python `Optional[bool]`: `none` is "the remote
call itself failed" (unknown), `some false` is confirmed absent, `some true`
confirmed present (for deletes, `some true` is success). -/
structure Cloud where
  is_server_created : Option Bool
  get_server_status : ServerStatus
  is_volume_created : Option Bool
  get_volume_status : VolumeStatus
  is_backup_created : Option Bool
  get_backup_status : VolumeStatus
  delete_server : Option Bool
  delete_volume : Option Bool
  create_volume_backup : Option Nat

/-- A job handed to the delay scheduler (`scheduler.enqueue_in`):
which function is scheduled and with what accumulated state. -/
inductive Sched
| none
| checkShutoff (retries : Nat) (next : Sched)
| disposeVolume (archive : Bool) (retries : Nat)
| waitVolumeDeleted (retries : Nat)
| waitBackupDeleted (retries : Nat)
| waitForBackup (backupId : Nat) (deadline : Nat)
deriving DecidableEq

/- Retry budgets and wait times.  Modelled from the spec:
`vm_manager/constants.py` is not in the corpus; these are fixed positive
configuration constants whose concrete values are immaterial to every theorem
below (spec sections 4.3 and 7 describe them only as "fixed retry count" /
"bounded retry" budgets). -/

def INSTANCE_CHECK_SHUTOFF_RETRY_COUNT : Nat := 5

def INSTANCE_DELETION_RETRY_COUNT : Nat := 10

def VOLUME_DELETION_RETRY_COUNT : Nat := 10

def BACKUP_DELETION_RETRY_COUNT : Nat := 10

def ARCHIVE_WAIT_SECONDS : Nat := 3600

def BACKUP_LIFETIME : Nat := 2592000

/-- Result of an instance-level workflow step of `delete_vm.py`.
`stopRequested` records that `cloud.stop_server` was called,
`deleteServerRequested` that `cloud.delete_server` was called (through
`delete_instance`). -/
structure InstStepResult where
  inst : InstanceRec
  vmStatus : Option VMStatusRec
  store : ExpStore
  stopRequested : Bool
  deleteServerRequested : Bool
  sched : Sched
  wf : WF

/-- Result of a volume-level workflow step of `delete_vm.py`. -/
structure VolStepResult where
  vol : VolumeRec
  vmStatus : Option VMStatusRec
  store : ExpStore
  sched : Sched
  wf : WF

/-- `delete_instance` (delete_vm.py lines 116-126): ask the connector to
delete the server; on `None`/`False` report failure, otherwise stamp
`marked_for_deletion` and report success. -/
def delete_instance (inst : InstanceRec) (c : Cloud) (now : Nat) :
    InstanceRec × Bool :=
  match c.delete_server with
  | Option.none => (inst, false)
  | some false => (inst, false)
  | some true => ({ inst with marked_for_deletion := some now }, true)

/-- `delete_volume` (delete_vm.py lines 186-196): ask the connector to delete
the volume; on `None`/`False` report failure, otherwise stamp `deleted` and
report success. -/
def delete_volume (vol : VolumeRec) (c : Cloud) (now : Nat) :
    VolumeRec × Bool :=
  match c.delete_volume with
  | Option.none => (vol, false)
  | some false => (vol, false)
  | some true => ({ vol with deleted := some now }, true)

/-- One iteration of `_end_delete`'s loop body (delete_vm.py lines 287-299)
for a single expiration link: refetch the row, and if its stage is
`EXP_EXPIRING` translate the workflow-result into the new stage, stamp
`stage_date` and save. -/
def endDeleteOne (s : ExpStore) (link : Option Nat) (wf : WF) (now : Nat) :
    ExpStore :=
  match link with
  | Option.none => s
  | some pk =>
    let e := s pk
    if e.stage = ExpStage.EXP_EXPIRING then
      let stage' :=
        if wf = WF.FAIL then ExpStage.EXP_EXPIRY_FAILED
        else if wf = WF.RETRY then ExpStage.EXP_EXPIRY_FAILED_RETRYABLE
        else if wf = WF.SUCCESS then ExpStage.EXP_EXPIRY_COMPLETED
        else e.stage
      setExp s pk { stage := stage', stage_date := now }
    else s

/-- `_end_delete` (delete_vm.py lines 286-300): iterate over
`[volume.expiration, volume.backup_expiration]` and return `wf_status`
unchanged. -/
def end_delete (vol : VolumeRec) (s : ExpStore) (wf : WF) (now : Nat) :
    ExpStore × WF :=
  (endDeleteOne (endDeleteOne s vol.expiration wf now) vol.backup_expiration wf now,
   wf)

/-- `archive_volume_worker` (delete_vm.py lines 303-350): stamp
`marked_for_deletion` and save first ("This hides the volume from the
get_volume method"), then consult the connector; a missing volume finalizes
with `WF_SUCCESS`, a volume in the wrong state with `WF_RETRY`, a failed
backup-create (`CloudConnectorError`, oracle value `none`) with `WF_RETRY`;
otherwise schedule `wait_for_backup` with an `after_time(ARCHIVE_WAIT_SECONDS)`
deadline, set any VMStatus to `NO_VM`, and return `WF_CONTINUE`. -/
def archive_volume_worker (vol0 : VolumeRec) (vmStatus : Option VMStatusRec)
    (store : ExpStore) (c : Cloud) (now : Nat) : VolStepResult :=
  let vol := { vol0 with marked_for_deletion := some now }
  if c.is_volume_created = Option.none ∨ c.is_volume_created = some false then
    let vol := vol.error "Cloud volume missing. Cannot be archived."
    let sw := end_delete vol store WF.SUCCESS now
    { vol := vol, vmStatus := vmStatus, store := sw.1, sched := Sched.none,
      wf := sw.2 }
  else if c.get_volume_status ≠ VolumeStatus.AVAILABLE then
    let sw := end_delete vol store WF.RETRY now
    { vol := vol, vmStatus := vmStatus, store := sw.1, sched := Sched.none,
      wf := sw.2 }
  else
    match c.create_volume_backup with
    | Option.none =>
      let vol := vol.error "Cinder backup failed"
      let sw := end_delete vol store WF.RETRY now
      { vol := vol, vmStatus := vmStatus, store := sw.1, sched := Sched.none,
        wf := sw.2 }
    | some backupId =>
      let vmStatus := match vmStatus with
        | some vs => some { vs with status := VMStatusValue.NO_VM }
        | Option.none => Option.none
      { vol := vol, vmStatus := vmStatus, store := store,
        sched := Sched.waitForBackup backupId (now + ARCHIVE_WAIT_SECONDS),
        wf := WF.CONTINUE }

/-- `wait_for_backup` (delete_vm.py lines 353-387): a vanished backup
finalizes `WF_RETRY`; `BACKING_UP` past the deadline finalizes `WF_RETRY`,
otherwise re-schedules the same check; `AVAILABLE` records the backup, sets
the backup expiry (`volume.set_backup_expires`, modelled from the spec as
recording the backup decommission deadline since `models.py` is not in the
corpus), deletes the source volume and finalizes `WF_SUCCESS`; any other
backup state finalizes `WF_FAIL`. -/
def wait_for_backup (vol : VolumeRec) (vmStatus : Option VMStatusRec)
    (store : ExpStore) (c : Cloud) (backupId deadline now : Nat) :
    VolStepResult :=
  if c.is_backup_created = Option.none ∨ c.is_backup_created = some false then
    let sw := end_delete vol store WF.RETRY now
    { vol := vol, vmStatus := vmStatus, store := sw.1, sched := Sched.none,
      wf := sw.2 }
  else if c.get_backup_status = VolumeStatus.BACKING_UP then
    if now > deadline then
      let sw := end_delete vol store WF.RETRY now
      { vol := vol, vmStatus := vmStatus, store := sw.1, sched := Sched.none,
        wf := sw.2 }
    else
      { vol := vol, vmStatus := vmStatus, store := store,
        sched := Sched.waitForBackup backupId deadline, wf := WF.CONTINUE }
  else if c.get_backup_status = VolumeStatus.AVAILABLE then
    let vol := { vol with backup_id := some backupId
                          archived_at := some now
                          backup_expires := some (now + BACKUP_LIFETIME) }
    let dv := delete_volume vol c now
    let sw := end_delete dv.1 store WF.SUCCESS now
    { vol := dv.1, vmStatus := vmStatus, store := sw.1, sched := Sched.none,
      wf := sw.2 }
  else
    let sw := end_delete vol store WF.FAIL now
    { vol := vol, vmStatus := vmStatus, store := sw.1, sched := Sched.none,
      wf := sw.2 }

/-- `_wait_until_volume_is_deleted` (delete_vm.py lines 199-228): an unknown
existence result finalizes `WF_RETRY`; confirmed absence stamps `deleted` and
finalizes `WF_SUCCESS`; a still-present volume not in `DELETING` finalizes
`WF_RETRY`; otherwise re-schedule while retries remain, and finalize
`WF_RETRY` (after `volume.error`) when the budget is exhausted. -/
def wait_until_volume_is_deleted (vol : VolumeRec)
    (vmStatus : Option VMStatusRec) (store : ExpStore) (c : Cloud)
    (retries : Nat) (now : Nat) : VolStepResult :=
  match c.is_volume_created with
  | Option.none =>
    let sw := end_delete vol store WF.RETRY now
    { vol := vol, vmStatus := vmStatus, store := sw.1, sched := Sched.none,
      wf := sw.2 }
  | some false =>
    let vol := { vol with deleted := some now }
    let sw := end_delete vol store WF.SUCCESS now
    { vol := vol, vmStatus := vmStatus, store := sw.1, sched := Sched.none,
      wf := sw.2 }
  | some true =>
    if c.get_volume_status ≠ VolumeStatus.DELETING then
      let sw := end_delete vol store WF.RETRY now
      { vol := vol, vmStatus := vmStatus, store := sw.1, sched := Sched.none,
        wf := sw.2 }
    else if retries > 0 then
      { vol := vol, vmStatus := vmStatus, store := store,
        sched := Sched.waitVolumeDeleted (retries - 1), wf := WF.CONTINUE }
    else
      let vol := vol.error "Ran out of retries trying to delete"
      let sw := end_delete vol store WF.RETRY now
      { vol := vol, vmStatus := vmStatus, store := sw.1, sched := Sched.none,
        wf := sw.2 }

/-- `_wait_until_backup_is_deleted` (delete_vm.py lines 258-283): unknown
finalizes `WF_RETRY`; confirmed absence clears `backup_id` and finalizes
`WF_SUCCESS`; otherwise re-schedule while retries remain and finalize
`WF_RETRY` when the budget is exhausted. -/
def wait_until_backup_is_deleted (vol : VolumeRec)
    (vmStatus : Option VMStatusRec) (store : ExpStore) (c : Cloud)
    (retries : Nat) (now : Nat) : VolStepResult :=
  match c.is_backup_created with
  | Option.none =>
    let sw := end_delete vol store WF.RETRY now
    { vol := vol, vmStatus := vmStatus, store := sw.1, sched := Sched.none,
      wf := sw.2 }
  | some false =>
    let vol := { vol with backup_id := Option.none }
    let sw := end_delete vol store WF.SUCCESS now
    { vol := vol, vmStatus := vmStatus, store := sw.1, sched := Sched.none,
      wf := sw.2 }
  | some true =>
    if retries > 0 then
      { vol := vol, vmStatus := vmStatus, store := store,
        sched := Sched.waitBackupDeleted (retries - 1), wf := WF.CONTINUE }
    else
      let sw := end_delete vol store WF.RETRY now
      { vol := vol, vmStatus := vmStatus, store := sw.1, sched := Sched.none,
        wf := sw.2 }

/-- `delete_volume_worker` (delete_vm.py lines 178-183): issue the volume
delete, then run the deletion poll synchronously with the full retry budget;
a failed delete call returns `WF_FAIL`. -/
def delete_volume_worker (vol : VolumeRec) (vmStatus : Option VMStatusRec)
    (store : ExpStore) (c : Cloud) (now : Nat) : VolStepResult :=
  let dv := delete_volume vol c now
  if dv.2 then
    wait_until_volume_is_deleted dv.1 vmStatus store c
      VOLUME_DELETION_RETRY_COUNT now
  else
    { vol := dv.1, vmStatus := vmStatus, store := store, sched := Sched.none,
      wf := WF.FAIL }

/-- `delete_vm_worker` (delete_vm.py lines 35-75): detach any Guacamole
connection; an absent or unknown remote server is recorded with
`instance.error(..., gone=True)` (same branch for both); an `ACTIVE` server
gets a stop request; `SHUTOFF` proceeds; any other remote state is recorded
as an error and the step returns `WF_RETRY` without scheduling anything.
Otherwise the shutoff check is scheduled (which will then hand over to
`_dispose_volume_once_instance_is_deleted`) and the step returns
`WF_CONTINUE`. -/
def delete_vm_worker (inst0 : InstanceRec) (vmStatus : Option VMStatusRec)
    (store : ExpStore) (c : Cloud) (archive : Bool) (now : Nat) :
    InstStepResult :=
  let inst := if inst0.guac_connection then { inst0 with guac_connection := false }
              else inst0
  let nextCheck := Sched.checkShutoff INSTANCE_CHECK_SHUTOFF_RETRY_COUNT
    (Sched.disposeVolume archive INSTANCE_DELETION_RETRY_COUNT)
  if c.is_server_created = Option.none ∨ c.is_server_created = some false then
    { inst := inst.error "Nova instance is missing" true now,
      vmStatus := vmStatus, store := store, stopRequested := false,
      deleteServerRequested := false, sched := nextCheck, wf := WF.CONTINUE }
  else if c.get_server_status = ServerStatus.ACTIVE then
    { inst := inst, vmStatus := vmStatus, store := store, stopRequested := true,
      deleteServerRequested := false, sched := nextCheck, wf := WF.CONTINUE }
  else if c.get_server_status = ServerStatus.SHUTOFF then
    { inst := inst, vmStatus := vmStatus, store := store,
      stopRequested := false, deleteServerRequested := false,
      sched := nextCheck, wf := WF.CONTINUE }
  else
    { inst := inst.error ("Nova instance state is " ++ c.get_server_status.pyStr)
                false now,
      vmStatus := vmStatus, store := store, stopRequested := false,
      deleteServerRequested := false, sched := Sched.none, wf := WF.RETRY }

/-- `_check_instance_is_shutoff_and_delete` (delete_vm.py lines 78-113): while
the server is not shut off and retries remain, re-schedule the same check
with a decremented budget; otherwise (shut off, or budget exhausted — the
exhausted case proceeds anyway) update a waiting VMStatus to progress 66,
issue the instance deletion, and either return `WF_FAIL` (delete call failed)
or schedule the continuation `next` and return `WF_CONTINUE`. -/
def check_instance_is_shutoff_and_delete (inst : InstanceRec)
    (vmStatus : Option VMStatusRec) (store : ExpStore) (c : Cloud)
    (shutoff : Bool) (retries : Nat) (next : Sched) (now : Nat) :
    InstStepResult :=
  if shutoff = false ∧ retries > 0 then
    { inst := inst, vmStatus := vmStatus, store := store,
      stopRequested := false, deleteServerRequested := false,
      sched := Sched.checkShutoff (retries - 1) next, wf := WF.CONTINUE }
  else
    let vmStatus := match vmStatus with
      | some vs =>
        if vs.status = VMStatusValue.VM_WAITING then
          some { vs with status_progress := 66
                         status_message := "Instance shelving" }
        else some vs
      | Option.none => Option.none
    let di := delete_instance inst c now
    if di.2 then
      { inst := di.1, vmStatus := vmStatus, store := store,
        stopRequested := false, deleteServerRequested := true, sched := next,
        wf := WF.CONTINUE }
    else
      { inst := di.1, vmStatus := vmStatus, store := store,
        stopRequested := false, deleteServerRequested := true,
        sched := Sched.none, wf := WF.FAIL }

/-- `_dispose_volume_once_instance_is_deleted` (delete_vm.py lines 129-175):
an unknown server-existence result returns `WF_RETRY` (without touching any
record); a still-present server re-schedules this step on a long interval
while retries remain, else records an instance error and returns `WF_RETRY`;
a confirmed-absent server stamps `instance.deleted` and disposes of the boot
volume — by `archive_volume_worker` when archiving, else by issuing the
volume delete and scheduling the deletion poll (a failed delete call
finalizes `WF_RETRY` through `_end_delete`). -/
def dispose_volume_once_instance_is_deleted (inst : InstanceRec)
    (vmStatus : Option VMStatusRec) (store : ExpStore) (c : Cloud)
    (archive : Bool) (retries : Nat) (now : Nat) : InstStepResult :=
  match c.is_server_created with
  | Option.none =>
    { inst := inst, vmStatus := vmStatus, store := store,
      stopRequested := false, deleteServerRequested := false,
      sched := Sched.none, wf := WF.RETRY }
  | some true =>
    if retries > 0 then
      { inst := inst, vmStatus := vmStatus, store := store,
        stopRequested := false, deleteServerRequested := false,
        sched := Sched.disposeVolume archive (retries - 1), wf := WF.CONTINUE }
    else
      { inst := inst.error "Ran out of retries trying to delete" false now,
        vmStatus := vmStatus, store := store, stopRequested := false,
        deleteServerRequested := false, sched := Sched.none, wf := WF.RETRY }
  | some false =>
    let inst := { inst with deleted := some now }
    if archive then
      let r := archive_volume_worker inst.boot_volume vmStatus store c now
      { inst := { inst with boot_volume := r.vol }, vmStatus := r.vmStatus,
        store := r.store, stopRequested := false,
        deleteServerRequested := false, sched := r.sched, wf := r.wf }
    else
      let dv := delete_volume inst.boot_volume c now
      let inst := { inst with boot_volume := dv.1 }
      if dv.2 then
        { inst := inst, vmStatus := vmStatus, store := store,
          stopRequested := false, deleteServerRequested := false,
          sched := Sched.waitVolumeDeleted VOLUME_DELETION_RETRY_COUNT,
          wf := WF.CONTINUE }
      else
        let sw := end_delete dv.1 store WF.RETRY now
        { inst := inst, vmStatus := vmStatus, store := sw.1,
          stopRequested := false, deleteServerRequested := false,
          sched := Sched.none, wf := sw.2 }

/-- Python exceptions raised inside `archive_expired_volume`'s `try` block. -/
inductive PyExc
| nameErrorWFSKIP
| vmStatusLookupFailed
deriving DecidableEq

/-- The `try` block of `archive_expired_volume` (delete_vm.py lines 391-399).
When the VMStatus is not `VM_SHELVED` the source executes `return WF_SKIP`;
the name `WF_SKIP` is not among the names imported from
`vm_manager.constants` in delete_vm.py (lines 13-20) and is not defined in
the module, so that statement raises `NameError` at runtime, modelled here as
`PyExc.nameErrorWFSKIP`.  A failing VMStatus lookup raises as well. -/
def archive_expired_volume_try (vol : VolumeRec)
    (vmLookup : Except Unit VMStatusRec) (store : ExpStore) (c : Cloud)
    (now : Nat) : Except PyExc VolStepResult :=
  match vmLookup with
  | Except.error _ => Except.error PyExc.vmStatusLookupFailed
  | Except.ok vs =>
    if vs.status ≠ VMStatusValue.VM_SHELVED then
      Except.error PyExc.nameErrorWFSKIP
    else
      Except.ok (archive_volume_worker vol (some vs) store c now)

/-- `archive_expired_volume` (delete_vm.py lines 390-403): run the `try`
block; the blanket `except Exception` catches any exception (including the
`NameError` from the unimported `WF_SKIP`), logs, and falls through to
`return WF_FAIL`. -/
def archive_expired_volume (vol : VolumeRec)
    (vmLookup : Except Unit VMStatusRec) (store : ExpStore) (c : Cloud)
    (now : Nat) : VolStepResult :=
  match archive_expired_volume_try vol vmLookup store c now with
  | Except.ok r => r
  | Except.error _ =>
    { vol := vol,
      vmStatus := match vmLookup with
        | Except.ok vs => some vs
        | Except.error _ => Option.none,
      store := store, sched := Sched.none, wf := WF.FAIL }

/-- The volume-reuse validation of `_create_volume` (create_vm.py lines
56-99): given that a local Volume row exists, check it against the connector
(`is_volume_created`, where `None` and `False` share a branch), its remote
status, its availability zone, and the VMStatus; return the possibly-mutated
row together with `some volume` when the shelved volume is reusable and
`Option.none` when `_create_volume` would return `None` ("needs manual
cleanup" paths, or a non-shelved VMStatus). -/
def create_volume_reuse_check (vol : VolumeRec) (vs : VMStatusRec) (c : Cloud)
    (zoneOk : Bool) : VolumeRec × Option VolumeRec :=
  if c.is_volume_created = Option.none ∨ c.is_volume_created = some false then
    (vol.error "Cinder volume missing", Option.none)
  else if c.get_volume_status ≠ VolumeStatus.AVAILABLE then
    (vol.error ("Cinder volume in state " ++ c.get_volume_status.pyStr),
     Option.none)
  else if zoneOk = false then
    (vol.error "Cinder volume in wrong AZ", Option.none)
  else if vs.status = VMStatusValue.VM_SHELVED then
    if vol.archived_at.isSome then (vol, Option.none)
    else
      let vol := { vol with expires := Option.none }
      (vol, some vol)
  else
    (vol, Option.none)

/-- A Python dict key as it occurs in the status-mapping tables: either an
enum member of the per-provider status enum, or a plain string.  Python's
`==` never identifies a plain-`Enum` member with a string (`Enum` does not
mix in `str`), which the derived equality reflects: distinct constructors are
never equal. -/
inductive PyKey (ε : Type)
| enumMember (k : ε)
| strLit (s : String)
deriving DecidableEq

/-- Python `dict.get`: scan the stored key/value pairs and return the value
whose key compares `==` to the query, else `None`. -/
def getMapped {κ τ : Type} [DecidableEq κ] : List (κ × τ) → κ → Option τ
| [], _ => Option.none
| (k, v) :: rest, q => if q = k then some v else getMapped rest q

/-- `StatusMapper` (objects.py lines 12-34). -/
structure StatusMapper (κ τ : Type) where
  status_mapping : List (κ × τ)
  default_value : τ

/-- `StatusMapper._get_mapped_status`: `self._status_mapping.get(status)`. -/
def StatusMapper.get_mapped_status {κ τ : Type} [DecidableEq κ]
    (m : StatusMapper κ τ) (q : κ) : Option τ :=
  getMapped m.status_mapping q

/-- `StatusMapper.get_status`: `value if value else self._get_default_value()`.
A dict miss gives `None` (falsy); a hit gives an enum member, and plain-`Enum`
members are always truthy in Python, so a hit is returned as-is. -/
def StatusMapper.get_status {κ τ : Type} [DecidableEq κ]
    (m : StatusMapper κ τ) (q : κ) : τ :=
  match m.get_mapped_status q with
  | some v => v
  | Option.none => m.default_value

/-- `OpenStackServerStatus` (openstack.py lines 31-58): a plain `Enum` whose
member values are the remote API's status strings. -/
inductive OpenStackServerStatus
| UNKNOWN
| ERROR
| DELETED
| ACTIVE
| BUILD
| REBUILD
| RESIZE
| VERIFY_RESIZE
| MIGRATING
| RESCUE
| REVERT_RESIZE
| SHELVED
| SHELVED_OFFLOADED
| SOFT_DELETED
| PAUSED
| SUSPENDED
| SHUTOFF
| REBOOT
| HARD_REBOOT
| PASSWORD
deriving DecidableEq

/-- The `.value` string of each `OpenStackServerStatus` member. -/
def OpenStackServerStatus.value : OpenStackServerStatus → String
| .UNKNOWN => "UNKNOWN"
| .ERROR => "ERROR"
| .DELETED => "DELETED"
| .ACTIVE => "ACTIVE"
| .BUILD => "BUILD"
| .REBUILD => "REBUILD"
| .RESIZE => "RESIZE"
| .VERIFY_RESIZE => "VERIFY_RESIZE"
| .MIGRATING => "MIGRATING"
| .RESCUE => "RESCUE"
| .REVERT_RESIZE => "REVERT_RESIZE"
| .SHELVED => "SHELVED"
| .SHELVED_OFFLOADED => "SHELVED_OFFLOADED"
| .SOFT_DELETED => "SOFT_DELETED"
| .PAUSED => "PAUSED"
| .SUSPENDED => "SUSPENDED"
| .SHUTOFF => "SHUTOFF"
| .REBOOT => "REBOOT"
| .HARD_REBOOT => "HARD_REBOOT"
| .PASSWORD => "PASSWORD"

/-- `OS_SERVER_STATUS_MAPPING` (openstack.py lines 61-86): a dict whose keys
are `OpenStackServerStatus` *enum members* (not their string values). -/
def OS_SERVER_STATUS_MAPPING :
    List (PyKey OpenStackServerStatus × ServerStatus) :=
  [(PyKey.enumMember .UNKNOWN, ServerStatus.UNKNOWN),
   (PyKey.enumMember .ERROR, ServerStatus.ERROR),
   (PyKey.enumMember .DELETED, ServerStatus.DELETED),
   (PyKey.enumMember .ACTIVE, ServerStatus.ACTIVE),
   (PyKey.enumMember .BUILD, ServerStatus.BUILD),
   (PyKey.enumMember .REBUILD, ServerStatus.REBUILD),
   (PyKey.enumMember .RESIZE, ServerStatus.RESIZE),
   (PyKey.enumMember .VERIFY_RESIZE, ServerStatus.VERIFY_RESIZE),
   (PyKey.enumMember .MIGRATING, ServerStatus.MIGRATING),
   (PyKey.enumMember .RESCUE, ServerStatus.RESCUE),
   (PyKey.enumMember .REVERT_RESIZE, ServerStatus.REVERT_RESIZE),
   (PyKey.enumMember .SHELVED, ServerStatus.SHELVED),
   (PyKey.enumMember .SHELVED_OFFLOADED, ServerStatus.SHELVED_OFFLOADED),
   (PyKey.enumMember .SOFT_DELETED, ServerStatus.SOFT_DELETED),
   (PyKey.enumMember .PAUSED, ServerStatus.PAUSED),
   (PyKey.enumMember .SUSPENDED, ServerStatus.SUSPENDED),
   (PyKey.enumMember .SHUTOFF, ServerStatus.SHUTOFF),
   (PyKey.enumMember .REBOOT, ServerStatus.REBOOT),
   (PyKey.enumMember .HARD_REBOOT, ServerStatus.HARD_REBOOT),
   (PyKey.enumMember .PASSWORD, ServerStatus.PASSWORD)]

/-- `OS_SERVER_STATUS_MAPPER` (openstack.py line 88). -/
def OS_SERVER_STATUS_MAPPER :
    StatusMapper (PyKey OpenStackServerStatus) ServerStatus :=
  { status_mapping := OS_SERVER_STATUS_MAPPING
    default_value := ServerStatus.UNKNOWN }

/-- `OpenStackVolumeStatus` (openstack.py lines 91-118). -/
inductive OpenStackVolumeStatus
| CREATING
| AVAILABLE
| IN_USE
| DELETING
| ERROR
| ERROR_DELETING
| ERROR_MANAGING
| ERROR_RESTORING
| ERROR_BACKING_UP
| ERROR_EXTENDING
| MANAGING
| ATTACHING
| DETACHING
| MAINTENANCE
| RESTORING_BACKUP
| RESERVED
| AWAITING_TRANSFER
| BACKING_UP
| DOWNLOADING
| UPLOADING
| RETYPING
| EXTENDING
deriving DecidableEq

/-- The `.value` string of each `OpenStackVolumeStatus` member. -/
def OpenStackVolumeStatus.value : OpenStackVolumeStatus → String
| .CREATING => "creating"
| .AVAILABLE => "available"
| .IN_USE => "in-use"
| .DELETING => "deleting"
| .ERROR => "error"
| .ERROR_DELETING => "error_deleting"
| .ERROR_MANAGING => "error_managing"
| .ERROR_RESTORING => "error_restoring"
| .ERROR_BACKING_UP => "error_backing-up"
| .ERROR_EXTENDING => "error_extending"
| .MANAGING => "managing"
| .ATTACHING => "attaching"
| .DETACHING => "detaching"
| .MAINTENANCE => "maintenance"
| .RESTORING_BACKUP => "restoring-backup"
| .RESERVED => "reserved"
| .AWAITING_TRANSFER => "awaiting-transfer"
| .BACKING_UP => "backing-up"
| .DOWNLOADING => "downloading"
| .UPLOADING => "uploading"
| .RETYPING => "retyping"
| .EXTENDING => "extending"

/-- `OS_VOLUME_STATUS_MAPPING` (openstack.py lines 121-147): keys are
`OpenStackVolumeStatus` enum members. -/
def OS_VOLUME_STATUS_MAPPING :
    List (PyKey OpenStackVolumeStatus × VolumeStatus) :=
  [(PyKey.enumMember .CREATING, VolumeStatus.CREATING),
   (PyKey.enumMember .AVAILABLE, VolumeStatus.AVAILABLE),
   (PyKey.enumMember .IN_USE, VolumeStatus.IN_USE),
   (PyKey.enumMember .DELETING, VolumeStatus.DELETING),
   (PyKey.enumMember .ERROR, VolumeStatus.ERROR),
   (PyKey.enumMember .ERROR_DELETING, VolumeStatus.ERROR_DELETING),
   (PyKey.enumMember .ERROR_MANAGING, VolumeStatus.ERROR_MANAGING),
   (PyKey.enumMember .ERROR_RESTORING, VolumeStatus.ERROR_RESTORING),
   (PyKey.enumMember .ERROR_BACKING_UP, VolumeStatus.ERROR_BACKING_UP),
   (PyKey.enumMember .ERROR_EXTENDING, VolumeStatus.ERROR_EXTENDING),
   (PyKey.enumMember .MANAGING, VolumeStatus.MANAGING),
   (PyKey.enumMember .ATTACHING, VolumeStatus.ATTACHING),
   (PyKey.enumMember .DETACHING, VolumeStatus.DETACHING),
   (PyKey.enumMember .MAINTENANCE, VolumeStatus.MAINTENANCE),
   (PyKey.enumMember .RESTORING_BACKUP, VolumeStatus.RESTORING_BACKUP),
   (PyKey.enumMember .RESERVED, VolumeStatus.RESERVED),
   (PyKey.enumMember .AWAITING_TRANSFER, VolumeStatus.AWAITING_TRANSFER),
   (PyKey.enumMember .BACKING_UP, VolumeStatus.BACKING_UP),
   (PyKey.enumMember .DOWNLOADING, VolumeStatus.DOWNLOADING),
   (PyKey.enumMember .UPLOADING, VolumeStatus.UPLOADING),
   (PyKey.enumMember .RETYPING, VolumeStatus.RETYPING),
   (PyKey.enumMember .EXTENDING, VolumeStatus.EXTENDING)]

/-- `OS_VOLUME_STATUS_MAPPER` (openstack.py line 149). -/
def OS_VOLUME_STATUS_MAPPER :
    StatusMapper (PyKey OpenStackVolumeStatus) VolumeStatus :=
  { status_mapping := OS_VOLUME_STATUS_MAPPING
    default_value := VolumeStatus.UNKNOWN }

/-- Outcome of an underlying Nova/Cinder API call: succeeded, raised
`NotFound`, or raised another `ClientException`. -/
inductive CloudCall
| ok
| notFound
| clientError
deriving DecidableEq

/-- `OpenStack.is_server_created` (openstack.py lines 302-310). -/
def OpenStack.is_server_created : CloudCall → Option Bool
| .ok => some true
| .notFound => some false
| .clientError => Option.none

/-- `OpenStack.delete_server` (openstack.py lines 312-324): a `NotFound` on an
already-deleted server is success (`True`); only other client errors yield
`None`. -/
def OpenStack.delete_server : CloudCall → Option Bool
| .ok => some true
| .notFound => some true
| .clientError => Option.none

/-- `OpenStack.is_volume_created` (openstack.py lines 420-428). -/
def OpenStack.is_volume_created : CloudCall → Option Bool
| .ok => some true
| .notFound => some false
| .clientError => Option.none

/-- `OpenStack.delete_volume` (openstack.py lines 440-451): `NotFound` is
success; the `ClientException` handler has no `return`, so Python returns
`None`. -/
def OpenStack.delete_volume : CloudCall → Option Bool
| .ok => some true
| .notFound => some true
| .clientError => Option.none

/-- `OpenStack.get_server_status` (openstack.py lines 284-287): look the raw
`nova_server.status` *string* up in a mapper whose keys are
`OpenStackServerStatus` enum members. -/
def OpenStack.get_server_status (remote_status : String) : ServerStatus :=
  OS_SERVER_STATUS_MAPPER.get_status (PyKey.strLit remote_status)

/-- `OpenStack.get_volume_status` (openstack.py lines 410-413): look the raw
`cinder_volume.status` *string* up in a mapper whose keys are
`OpenStackVolumeStatus` enum members. -/
def OpenStack.get_volume_status (remote_status : String) : VolumeStatus :=
  OS_VOLUME_STATUS_MAPPER.get_status (PyKey.strLit remote_status)

/-- A volume candidate as returned by `cloud.get_volume_list` in
`_get_source_volume` (create_vm.py): its name and its parsed
`metadata.get('nectar_build', 0)` value (`Option.none` when the metadata key
is absent; `int(...)` of the stored string otherwise). -/
structure CVolume where
  id : Nat
  name : String
  nectar_build : Option Int
deriving DecidableEq

/-- `int(v.metadata.get('nectar_build', 0))`. -/
def buildOf (v : CVolume) : Int :=
  v.nectar_build.getD 0

/-- Python `str.startswith`: the prefix's characters head the string's. -/
def pyStartsWith (s pre : String) : Bool :=
  List.isPrefixOf pre.data s.data

/-- Insert into a build-sorted (descending) list, keeping earlier elements
ahead of later ones with the same build value. -/
def insertByBuild (a : CVolume) : List CVolume → List CVolume
| [] => [a]
| b :: l => if buildOf b ≤ buildOf a then a :: b :: l else b :: insertByBuild a l

/-- Python `sorted(..., key=lambda v: int(v.metadata.get('nectar_build', 0)),
reverse=True)`: the stable descending sort by build value.  A stable sort by
a total preorder has a unique result, realized here by insertion. -/
def sortByBuildDesc : List CVolume → List CVolume
| [] => []
| a :: l => insertByBuild a (sortByBuildDesc l)

/-- `_get_source_volume` (create_vm.py lines 142-169): `candidates = res or
[]`, keep the prefix matches, sort them by build value descending, and take
the first; raise (`Option.none`) when no candidate matches. -/
def get_source_volume (image_name : String) (res : Option (List CVolume)) :
    Option CVolume :=
  let candidates := res.getD []
  let matched :=
    sortByBuildDesc (candidates.filter (fun v => pyStartsWith v.name image_name))
  match matched with
  | [] => Option.none
  | m :: _ => some m

/-- Result of the `_resize_vm` step: whether the remote resize call was
issued, whether the confirmation step was scheduled, and the returned
description string. -/
structure ResizeOutcome where
  resizeRequested : Bool
  confirmScheduled : Bool
  message : String
deriving DecidableEq

/-- Modelled from the spec: the resize workflow module
(`vm_manager/vm_functions/resize_vm.py`) is not in the corpus; only its unit
tests are.  Per spec section 4.4, `_resize_vm` "short-circuits if the remote
server already has the target flavor (no-op, returns descriptive no-op
message); else issues resize and schedules confirmation after a fixed settle
delay".  The no-op message is the one asserted by
`vm_manager/tests/unit/vm_functions/test_resize_vm.py` (lines 155-158). -/
def resize_vm (instanceId : Nat) (currentFlavor targetFlavor : Nat) :
    ResizeOutcome :=
  if currentFlavor = targetFlavor then
    { resizeRequested := false
      confirmScheduled := false
      message := s!"Instance {instanceId} already has flavor {targetFlavor}. Skipping the resize." }
  else
    { resizeRequested := true
      confirmScheduled := true
      message := "resize requested" }

/- Concrete fixtures used by the closed counterexample and witness theorems
below. -/

/-- A concrete Volume row whose Expiration link is primary key 0. -/
def vol0 : VolumeRec :=
  { id := 11, deleted := Option.none, marked_for_deletion := Option.none,
    backup_id := Option.none, archived_at := Option.none,
    expires := Option.none, backup_expires := Option.none,
    error_message := Option.none, expiration := some 0,
    backup_expiration := Option.none }

/-- A concrete Instance row booted from `vol0`. -/
def inst0 : InstanceRec :=
  { id := 21, guac_connection := false, boot_volume := vol0,
    marked_for_deletion := Option.none, deleted := Option.none,
    error_message := Option.none }

/-- An Expiration store whose every row is mid-`EXP_EXPIRING`. -/
def store0 : ExpStore :=
  fun _ => { stage := ExpStage.EXP_EXPIRING, stage_date := 3 }

/-- A baseline cloud oracle: the server exists and is `PAUSED`, the volume
exists and is `AVAILABLE`. -/
def c0 : Cloud :=
  { is_server_created := some true, get_server_status := ServerStatus.PAUSED,
    is_volume_created := some true,
    get_volume_status := VolumeStatus.AVAILABLE,
    is_backup_created := some true,
    get_backup_status := VolumeStatus.BACKING_UP, delete_server := some true,
    delete_volume := some true, create_volume_backup := some 77 }

/-- A concrete VMStatus row in `VM_OKAY` (not shelved). -/
def vmOkay : VMStatusRec :=
  { status := VMStatusValue.VM_OKAY, status_progress := 100,
    status_message := "Ready" }

/-- A concrete VMStatus row in `VM_SHELVED`. -/
def vmShelved : VMStatusRec :=
  { status := VMStatusValue.VM_SHELVED, status_progress := 100,
    status_message := "Shelved" }

/-- Concrete source-volume candidates for the witness of the selection
property: two prefix matches with builds 1 and 3, one non-match. -/
def cand1 : CVolume := { id := 1, name := "image-a", nectar_build := some 1 }

/-- The candidate with the highest build among the prefix matches. -/
def cand2 : CVolume := { id := 2, name := "image-b", nectar_build := some 3 }

/-- A candidate whose name does not start with the image-name. -/
def cand3 : CVolume := { id := 3, name := "zother", nectar_build := some 9 }

/- Helper lemmas about the stable descending sort used by
`get_source_volume`. -/

theorem mem_insertByBuild {y v : CVolume} {rest : List CVolume} :
    y ∈ insertByBuild v rest ↔ y = v ∨ y ∈ rest := by
  induction rest with
  | cons b tl ih =>
    by_cases h : buildOf b ≤ buildOf v
    · simp [insertByBuild, h]
    · simp only [insertByBuild, if_neg h, List.mem_cons, ih]
      tauto
  | nil => simp [insertByBuild]

theorem mem_sortByBuildDesc {y : CVolume} {rest : List CVolume} :
    y ∈ sortByBuildDesc rest ↔ y ∈ rest := by
  induction rest with
  | cons v tl ih => simp [sortByBuildDesc, mem_insertByBuild, ih]
  | nil => simp [sortByBuildDesc]

theorem sortByBuildDesc_head_max {l : List CVolume} {m : CVolume}
    {t : List CVolume} (h : sortByBuildDesc l = m :: t) :
    ∀ x ∈ l, buildOf x ≤ buildOf m := by
  induction l generalizing m t with
  | nil => simp [sortByBuildDesc] at h
  | cons a l ih =>
    rw [sortByBuildDesc] at h
    cases hs : sortByBuildDesc l with
    | nil =>
      rw [hs] at h
      simp only [insertByBuild, List.cons.injEq] at h
      obtain ⟨rfl, -⟩ := h
      intro x hx
      rcases List.mem_cons.mp hx with rfl | hx
      · exact le_refl _
      · exact absurd (mem_sortByBuildDesc.mpr hx) (by simp [hs])
    | cons b t' =>
      rw [hs] at h
      have hb : ∀ x ∈ l, buildOf x ≤ buildOf b := fun x hx => ih hs x hx
      by_cases hba : buildOf b ≤ buildOf a
      · rw [insertByBuild, if_pos hba] at h
        obtain ⟨rfl, -⟩ := List.cons.injEq .. |>.mp h
        intro x hx
        rcases List.mem_cons.mp hx with rfl | hx
        · exact le_refl _
        · exact (hb x hx).trans hba
      · rw [insertByBuild, if_neg hba] at h
        obtain ⟨rfl, -⟩ := List.cons.injEq .. |>.mp h
        intro x hx
        rcases List.mem_cons.mp hx with rfl | hx
        · exact (not_le.mp hba).le
        · exact hb x hx

/- Helper lemmas about `_end_delete`'s per-link body. -/

theorem endDeleteOne_stage_changed {s : ExpStore} {link : Option Nat} {wf : WF}
    {now p : Nat} (h : (endDeleteOne s link wf now p).stage ≠ (s p).stage) :
    (s p).stage = ExpStage.EXP_EXPIRING ∧ link = some p := by
  cases link with
  | none => simp [endDeleteOne] at h
  | some q =>
    by_cases hq : (s q).stage = ExpStage.EXP_EXPIRING
    · by_cases hpq : p = q
      · subst hpq; exact ⟨hq, rfl⟩
      · exact absurd (by simp [endDeleteOne, hq, setExp, hpq]) h
    · exact absurd (by simp [endDeleteOne, hq]) h

theorem endDeleteOne_eq_of_not_expiring {s : ExpStore} {p : Nat} {wf : WF}
    {now : Nat} (h : (s p).stage ≠ ExpStage.EXP_EXPIRING) :
    endDeleteOne s (some p) wf now = s := by
  simp [endDeleteOne, h]

theorem endDeleteOne_apply_ne {s : ExpStore} {q : Nat} {wf : WF} {now p : Nat}
    (h : p ≠ q) : endDeleteOne s (some q) wf now p = s p := by
  by_cases hq : (s q).stage = ExpStage.EXP_EXPIRING
  · simp [endDeleteOne, hq, setExp, h]
  · simp [endDeleteOne, hq]

theorem endDeleteOne_not_expiring {s : ExpStore} {wf : WF} {now p : Nat}
    (hwf : wf = WF.SUCCESS ∨ wf = WF.FAIL ∨ wf = WF.RETRY) :
    (endDeleteOne s (some p) wf now p).stage ≠ ExpStage.EXP_EXPIRING := by
  by_cases hq : (s p).stage = ExpStage.EXP_EXPIRING
  · rcases hwf with rfl | rfl | rfl <;> simp [endDeleteOne, hq, setExp]
  · rw [endDeleteOne_eq_of_not_expiring hq]; exact hq

theorem endDeleteOne_stage_preserve {s : ExpStore} {link : Option Nat}
    {wf : WF} {now p : Nat} (h : (s p).stage ≠ ExpStage.EXP_EXPIRING) :
    (endDeleteOne s link wf now p).stage ≠ ExpStage.EXP_EXPIRING := by
  cases link with
  | none => exact h
  | some q =>
    by_cases hpq : p = q
    · subst hpq; rw [endDeleteOne_eq_of_not_expiring h]; exact h
    · rw [endDeleteOne_apply_ne hpq]; exact h

theorem endDeleteOne_id_of_links_not_expiring {s : ExpStore}
    {link : Option Nat} {wf : WF} {now : Nat}
    (h : ∀ p, link = some p → (s p).stage ≠ ExpStage.EXP_EXPIRING) :
    endDeleteOne s link wf now = s := by
  cases link with
  | none => rfl
  | some q => exact endDeleteOne_eq_of_not_expiring (h q rfl)

/-- C1 (counterexample): the claim "an unknown existence result causes the
caller to retry the same check, and is treated differently from a false
result ... no step handles the unknown and false results by the same branch"
is false at a concrete input: `delete_vm_worker` produces the *identical*
result for an unknown (`None`) and a confirmed-absent (`False`)
`is_server_created` answer — both mark the instance gone and advance to
scheduling the shutoff check (`WF_CONTINUE`), and neither re-schedules the
same existence check. -/
theorem c1_unknown_false_same_branch :
    delete_vm_worker inst0 Option.none store0
        { c0 with is_server_created := Option.none } false 9
      = delete_vm_worker inst0 Option.none store0
        { c0 with is_server_created := some false } false 9
    ∧ (delete_vm_worker inst0 Option.none store0
        { c0 with is_server_created := Option.none } false 9).wf = WF.CONTINUE
    ∧ (delete_vm_worker inst0 Option.none store0
        { c0 with is_server_created := Option.none } false 9).sched
      = Sched.checkShutoff INSTANCE_CHECK_SHUTOFF_RETRY_COUNT
          (Sched.disposeVolume false INSTANCE_DELETION_RETRY_COUNT) :=
  ⟨rfl, rfl, rfl⟩

/-- C1 (amended): the deletion-polling steps distinguish unknown from false —
`_wait_until_volume_is_deleted` and `_wait_until_backup_is_deleted` finalize
with the retryable result `WF_RETRY` on unknown but with `WF_SUCCESS`
(stamping the deletion) on false, and
`_dispose_volume_once_instance_is_deleted` returns `WF_RETRY` leaving every
record untouched on unknown but marks the instance deleted and advances on
false.  No step re-schedules the same existence check on unknown, and
`delete_vm_worker`, `archive_volume_worker` (where unknown even finalizes as
`WF_SUCCESS`), `wait_for_backup` and the volume-reuse check of
`_create_volume` handle unknown and false in the same branch, producing
identical results. -/
theorem c1_three_valued_existence_amended :
    (∀ (vol : VolumeRec) (vmS : Option VMStatusRec) (store : ExpStore)
       (c : Cloud) (retries now : Nat),
      (wait_until_volume_is_deleted vol vmS store
        { c with is_volume_created := Option.none } retries now).wf = WF.RETRY
      ∧ (wait_until_volume_is_deleted vol vmS store
        { c with is_volume_created := Option.none } retries now).sched
        = Sched.none)
    ∧ (∀ (vol : VolumeRec) (vmS : Option VMStatusRec) (store : ExpStore)
         (c : Cloud) (retries now : Nat),
      (wait_until_volume_is_deleted vol vmS store
        { c with is_volume_created := some false } retries now).wf = WF.SUCCESS
      ∧ (wait_until_volume_is_deleted vol vmS store
        { c with is_volume_created := some false } retries now).vol.deleted
        = some now)
    ∧ (∀ (vol : VolumeRec) (vmS : Option VMStatusRec) (store : ExpStore)
         (c : Cloud) (retries now : Nat),
      (wait_until_backup_is_deleted vol vmS store
        { c with is_backup_created := Option.none } retries now).wf = WF.RETRY
      ∧ (wait_until_backup_is_deleted vol vmS store
        { c with is_backup_created := some false } retries now).wf
        = WF.SUCCESS)
    ∧ (∀ (inst : InstanceRec) (vmS : Option VMStatusRec) (store : ExpStore)
         (c : Cloud) (archive : Bool) (retries now : Nat),
      dispose_volume_once_instance_is_deleted inst vmS store
        { c with is_server_created := Option.none } archive retries now
      = { inst := inst, vmStatus := vmS, store := store,
          stopRequested := false, deleteServerRequested := false,
          sched := Sched.none, wf := WF.RETRY })
    ∧ (∀ (inst : InstanceRec) (vmS : Option VMStatusRec) (store : ExpStore)
         (c : Cloud) (archive : Bool) (retries now : Nat),
      (dispose_volume_once_instance_is_deleted inst vmS store
        { c with is_server_created := some false } archive retries
        now).inst.deleted = some now)
    ∧ (∀ (inst : InstanceRec) (vmS : Option VMStatusRec) (store : ExpStore)
         (c : Cloud) (archive : Bool) (now : Nat),
      delete_vm_worker inst vmS store
        { c with is_server_created := Option.none } archive now
      = delete_vm_worker inst vmS store
        { c with is_server_created := some false } archive now)
    ∧ (∀ (vol : VolumeRec) (vmS : Option VMStatusRec) (store : ExpStore)
         (c : Cloud) (now : Nat),
      archive_volume_worker vol vmS store
        { c with is_volume_created := Option.none } now
      = archive_volume_worker vol vmS store
        { c with is_volume_created := some false } now
      ∧ (archive_volume_worker vol vmS store
        { c with is_volume_created := Option.none } now).wf = WF.SUCCESS)
    ∧ (∀ (vol : VolumeRec) (vmS : Option VMStatusRec) (store : ExpStore)
         (c : Cloud) (backupId deadline now : Nat),
      wait_for_backup vol vmS store
        { c with is_backup_created := Option.none } backupId deadline now
      = wait_for_backup vol vmS store
        { c with is_backup_created := some false } backupId deadline now)
    ∧ (∀ (vol : VolumeRec) (vs : VMStatusRec) (c : Cloud) (zoneOk : Bool),
      create_volume_reuse_check vol vs
        { c with is_volume_created := Option.none } zoneOk
      = create_volume_reuse_check vol vs
        { c with is_volume_created := some false } zoneOk) := by
  refine ⟨fun vol vmS store c retries now => ⟨rfl, rfl⟩,
    fun vol vmS store c retries now => ⟨rfl, rfl⟩,
    fun vol vmS store c retries now => ⟨rfl, rfl⟩,
    fun inst vmS store c archive retries now => rfl,
    ?_,
    fun inst vmS store c archive now => rfl,
    fun vol vmS store c now => ⟨rfl, rfl⟩,
    fun vol vmS store c backupId deadline now => rfl,
    fun vol vs c zoneOk => rfl⟩
  intro inst vmS store c archive retries now
  cases archive with
  | true =>
    simp [dispose_volume_once_instance_is_deleted]
  | false =>
    cases hc : c.delete_volume with
    | none =>
      simp [dispose_volume_once_instance_is_deleted, delete_volume, hc]
    | some b =>
      cases b <;>
        simp [dispose_volume_once_instance_is_deleted, delete_volume, hc]

/-- C2 (counterexample): the claim "for every delete/archive workflow run
that reaches a terminal workflow-result (SUCCESS, FAIL, or RETRY), the owning
Expiration record's stage is advanced exactly once ... all terminal outcomes
pass through the single finalization step" is false at a concrete input:
`delete_vm_worker` on a server in the unexpected state `PAUSED` ends the run
with the terminal result `WF_RETRY` (nothing further is scheduled) without
passing through `_end_delete` — the owning Expiration (primary key 0, linked
from the boot volume) is still in `EXP_EXPIRING` afterwards, i.e. it was
advanced zero times, not exactly once. -/
theorem c2_terminal_without_stage_advance :
    (delete_vm_worker inst0 Option.none store0 c0 false 9).wf = WF.RETRY
    ∧ (delete_vm_worker inst0 Option.none store0 c0 false 9).sched = Sched.none
    ∧ inst0.boot_volume.expiration = some 0
    ∧ (store0 0).stage = ExpStage.EXP_EXPIRING
    ∧ ((delete_vm_worker inst0 Option.none store0 c0 false 9).store 0).stage
      = ExpStage.EXP_EXPIRING :=
  ⟨rfl, rfl, rfl, rfl, rfl⟩

/-- C2 (amended): whenever a delete/archive step finalizes through the
module's single bookkeeping step `_end_delete`, the workflow-result is
returned unchanged, an Expiration row's stage changes only if that row is
linked from the volume (as `expiration` or `backup_expiration`) and its stage
was `EXP_EXPIRING` immediately beforehand, and after one finalization with a
terminal result (SUCCESS, FAIL or RETRY) no linked row is left in
`EXP_EXPIRING` — so any repeated finalization leaves the store unchanged and
the stage is advanced at most once per run.  (Terminal outcomes that bypass
`_end_delete`, such as `delete_vm_worker`'s unexpected-server-state
`WF_RETRY`, advance no stage at all — see the counterexample.) -/
theorem c2_expiration_stage_advance_amended (vol : VolumeRec)
    (store : ExpStore) (wf : WF) (now : Nat) :
    (end_delete vol store wf now).2 = wf
    ∧ (∀ p, ((end_delete vol store wf now).1 p).stage ≠ (store p).stage →
        (store p).stage = ExpStage.EXP_EXPIRING ∧
        (vol.expiration = some p ∨ vol.backup_expiration = some p))
    ∧ ((wf = WF.SUCCESS ∨ wf = WF.FAIL ∨ wf = WF.RETRY) →
        ∀ wf2 now2,
          (end_delete vol (end_delete vol store wf now).1 wf2 now2).1
            = (end_delete vol store wf now).1) := by
  refine ⟨rfl, ?_, ?_⟩
  · intro p hp
    by_cases h2 :
        (endDeleteOne (endDeleteOne store vol.expiration wf now)
          vol.backup_expiration wf now p).stage
        = (endDeleteOne store vol.expiration wf now p).stage
    · have h1 : (endDeleteOne store vol.expiration wf now p).stage
          ≠ (store p).stage := by
        intro he
        exact hp (by rw [show (end_delete vol store wf now).1
          = endDeleteOne (endDeleteOne store vol.expiration wf now)
              vol.backup_expiration wf now from rfl, h2, he])
      obtain ⟨hexp, hlink⟩ := endDeleteOne_stage_changed h1
      exact ⟨hexp, Or.inl hlink⟩
    · obtain ⟨hexp1, hlink⟩ := endDeleteOne_stage_changed h2
      refine ⟨?_, Or.inr hlink⟩
      by_cases h1 : (endDeleteOne store vol.expiration wf now p).stage
          = (store p).stage
      · rw [← h1]; exact hexp1
      · exact (endDeleteOne_stage_changed h1).1
  · intro hwf wf2 now2
    have key : ∀ p, (vol.expiration = some p ∨ vol.backup_expiration = some p) →
        ((end_delete vol store wf now).1 p).stage ≠ ExpStage.EXP_EXPIRING := by
      intro p hp
      rcases hp with hp | hp
      · show (endDeleteOne (endDeleteOne store vol.expiration wf now)
            vol.backup_expiration wf now p).stage ≠ ExpStage.EXP_EXPIRING
        refine endDeleteOne_stage_preserve ?_
        rw [hp]
        exact endDeleteOne_not_expiring hwf
      · show (endDeleteOne (endDeleteOne store vol.expiration wf now)
            vol.backup_expiration wf now p).stage ≠ ExpStage.EXP_EXPIRING
        rw [hp]
        exact endDeleteOne_not_expiring hwf
    show endDeleteOne
        (endDeleteOne (end_delete vol store wf now).1 vol.expiration wf2 now2)
        vol.backup_expiration wf2 now2 = (end_delete vol store wf now).1
    rw [endDeleteOne_id_of_links_not_expiring
      (fun p hp => key p (Or.inl hp))]
    exact endDeleteOne_id_of_links_not_expiring (fun p hp => key p (Or.inr hp))

/-- C2 (witness for the amended theorem): concrete run of the finalization
step — `_end_delete` with `WF_SUCCESS` on a volume whose Expiration is
mid-`EXP_EXPIRING` returns `WF_SUCCESS`, and a second finalization with
`WF_RETRY` leaves the Expiration store unchanged. -/
theorem c2_expiration_stage_advance_amended_witness :
    (end_delete vol0 store0 WF.SUCCESS 1).2 = WF.SUCCESS
    ∧ (end_delete vol0 (end_delete vol0 store0 WF.SUCCESS 1).1 WF.RETRY 2).1
      = (end_delete vol0 store0 WF.SUCCESS 1).1 :=
  ⟨(c2_expiration_stage_advance_amended vol0 store0 WF.SUCCESS 1).1,
   (c2_expiration_stage_advance_amended vol0 store0 WF.SUCCESS 1).2.2
     (Or.inl rfl) WF.RETRY 2⟩

/-- C3: the claim says the status translation returns the enum value the
mapping table assigns to the remote string and `UNKNOWN` exactly when the
string is not in the table.  The code belies it: the tables are keyed by
`OpenStackServerStatus` / `OpenStackVolumeStatus` *enum members* while
`get_server_status` / `get_volume_status` look up the raw remote *string*
(`nova_server.status` / `cinder_volume.status`), and a plain-`Enum` member
never compares equal to a string, so the lookup misses for *every* remote
string and the translation returns `UNKNOWN` unconditionally — even for
"ACTIVE", to which the table (through the enum member whose `.value` is
"ACTIVE") assigns `ServerStatus.ACTIVE`. -/
theorem c3_status_translation_always_unknown :
    (∀ s : String, OpenStack.get_server_status s = ServerStatus.UNKNOWN)
    ∧ (∀ s : String, OpenStack.get_volume_status s = VolumeStatus.UNKNOWN)
    ∧ OpenStackServerStatus.value OpenStackServerStatus.ACTIVE = "ACTIVE"
    ∧ getMapped OS_SERVER_STATUS_MAPPING
        (PyKey.enumMember OpenStackServerStatus.ACTIVE)
      = some ServerStatus.ACTIVE
    ∧ OpenStack.get_server_status "ACTIVE" = ServerStatus.UNKNOWN := by
  refine ⟨fun s => rfl, fun s => rfl, rfl, ?_, rfl⟩
  decide

/-- C4: deletion is idempotent — at the connector level,
`OpenStack.delete_server` on an already-deleted server (the underlying call
raises `NotFound`) returns success (`True`), and the `delete_instance` step
fed that answer reports success and stamps `marked_for_deletion`, for every
instance, whether or not it was already deleted locally; the connector's
`delete_volume` behaves the same way. -/
theorem c4_idempotent_delete :
    OpenStack.delete_server CloudCall.notFound = some true
    ∧ (∀ (inst : InstanceRec) (c : Cloud) (now : Nat),
        (delete_instance inst
          { c with delete_server := OpenStack.delete_server CloudCall.notFound }
          now).2 = true
        ∧ (delete_instance inst
          { c with delete_server := OpenStack.delete_server CloudCall.notFound }
          now).1.marked_for_deletion = some now)
    ∧ OpenStack.delete_volume CloudCall.notFound = some true := by
  refine ⟨rfl, ?_, rfl⟩
  intro i cl n
  exact ⟨rfl, rfl⟩

/-- C5: evaluation of `archive_expired_volume` at the failing input — a
volume whose VMStatus is `VM_OKAY` (not `VM_SHELVED`).  The `try` block's
`return WF_SKIP` raises `NameError` (the name is not imported in
delete_vm.py), the blanket `except` catches it, and the function returns
`WF_FAIL` instead of the claimed `WF_SKIP`, leaving the volume untouched.
When the VMStatus *is* `VM_SHELVED`, it proceeds to the archive worker as
claimed. -/
theorem c5_wrong_status_returns_fail_not_skip :
    archive_expired_volume_try vol0 (Except.ok vmOkay) store0 c0 7
      = Except.error PyExc.nameErrorWFSKIP
    ∧ (archive_expired_volume vol0 (Except.ok vmOkay) store0 c0 7).wf = WF.FAIL
    ∧ (archive_expired_volume vol0 (Except.ok vmOkay) store0 c0 7).vol = vol0
    ∧ archive_expired_volume vol0 (Except.ok vmShelved) store0 c0 7
      = archive_volume_worker vol0 (some vmShelved) store0 c0 7 :=
  ⟨rfl, rfl, rfl, rfl⟩

/-- C6: the per-step retry-exhaustion asymmetry.  With an exhausted budget
(`retries = 0`) the shutoff-confirmation step still proceeds to issue the
instance deletion whatever the shutoff answer was — and when the delete call
succeeds the workflow continues into the scheduled next step — whereas the
volume-deletion polling step with an exhausted budget (volume still present
and `DELETING`) and the backup-deletion polling step terminate the run with
the failure result `WF_RETRY` and schedule nothing; with budget remaining,
both polling steps re-schedule themselves with a decremented budget. -/
theorem c6_retry_exhaustion_asymmetry :
    (∀ (inst : InstanceRec) (vmS : Option VMStatusRec) (store : ExpStore)
       (c : Cloud) (shutoff : Bool) (next : Sched) (now : Nat),
      (check_instance_is_shutoff_and_delete inst vmS store c shutoff 0 next
        now).deleteServerRequested = true)
    ∧ (∀ (inst : InstanceRec) (vmS : Option VMStatusRec) (store : ExpStore)
         (c : Cloud) (shutoff : Bool) (next : Sched) (now : Nat),
      (check_instance_is_shutoff_and_delete inst vmS store
        { c with delete_server := some true } shutoff 0 next now).wf
        = WF.CONTINUE
      ∧ (check_instance_is_shutoff_and_delete inst vmS store
        { c with delete_server := some true } shutoff 0 next now).sched = next)
    ∧ (∀ (vol : VolumeRec) (vmS : Option VMStatusRec) (store : ExpStore)
         (c : Cloud) (now : Nat),
      (wait_until_volume_is_deleted vol vmS store
        { c with is_volume_created := some true,
                 get_volume_status := VolumeStatus.DELETING } 0 now).wf
        = WF.RETRY
      ∧ (wait_until_volume_is_deleted vol vmS store
        { c with is_volume_created := some true,
                 get_volume_status := VolumeStatus.DELETING } 0 now).sched
        = Sched.none)
    ∧ (∀ (vol : VolumeRec) (vmS : Option VMStatusRec) (store : ExpStore)
         (c : Cloud) (now : Nat),
      (wait_until_backup_is_deleted vol vmS store
        { c with is_backup_created := some true } 0 now).wf = WF.RETRY
      ∧ (wait_until_backup_is_deleted vol vmS store
        { c with is_backup_created := some true } 0 now).sched = Sched.none)
    ∧ (∀ (inst : InstanceRec) (vol : VolumeRec) (vmS : Option VMStatusRec)
         (store : ExpStore) (c : Cloud) (retries now : Nat),
      (wait_until_volume_is_deleted vol vmS store
        { c with is_volume_created := some true,
                 get_volume_status := VolumeStatus.DELETING } (retries + 1)
        now).sched = Sched.waitVolumeDeleted retries
      ∧ (check_instance_is_shutoff_and_delete inst vmS store c false
        (retries + 1) Sched.none now).sched
        = Sched.checkShutoff retries Sched.none) := by
  refine ⟨?_, ?_,
    fun vol vmS store c now => ⟨rfl, rfl⟩,
    fun vol vmS store c now => ⟨rfl, rfl⟩,
    ?_⟩
  · intro inst vmS store c shutoff next now
    cases hc : c.delete_server with
    | none =>
      cases shutoff <;>
        simp [check_instance_is_shutoff_and_delete, delete_instance, hc]
    | some b =>
      cases b <;> cases shutoff <;>
        simp [check_instance_is_shutoff_and_delete, delete_instance, hc]
  · intro inst vmS store c shutoff next now
    cases shutoff <;>
      exact ⟨rfl, rfl⟩
  · intro inst vol vmS store c retries now
    constructor
    · simp [wait_until_volume_is_deleted]
    · simp [check_instance_is_shutoff_and_delete]

/-- C7: `_get_source_volume` returns a candidate whose name starts with the
desktop type's image-name and whose numeric `nectar_build` metadata value
(defaulting to 0 when absent) is maximal among the prefix-matching
candidates, and it fails (raises, modelled as `Option.none`) when no
candidate matches the prefix. -/
theorem c7_source_volume_selection (image_name : String)
    (res : Option (List CVolume)) :
    (∀ v, get_source_volume image_name res = some v →
      pyStartsWith v.name image_name = true ∧
      ∀ cv ∈ res.getD [], pyStartsWith cv.name image_name = true →
        buildOf cv ≤ buildOf v)
    ∧ ((∀ cv ∈ res.getD [], pyStartsWith cv.name image_name = false) →
      get_source_volume image_name res = Option.none) := by
  constructor
  · intro v hv
    unfold get_source_volume at hv
    dsimp only at hv
    cases hs : sortByBuildDesc
        ((res.getD []).filter (fun v => pyStartsWith v.name image_name)) with
    | nil =>
      rw [hs] at hv
      exact absurd hv (by simp)
    | cons m t =>
      rw [hs] at hv
      simp only [Option.some.injEq] at hv
      subst hv
      constructor
      · have hm : m ∈ sortByBuildDesc
            ((res.getD []).filter (fun v => pyStartsWith v.name image_name)) :=
          hs ▸ List.mem_cons_self m t
        exact (List.mem_filter.mp (mem_sortByBuildDesc.mp hm)).2
      · intro cv hcv hpre
        exact sortByBuildDesc_head_max hs cv
          (List.mem_filter.mpr ⟨hcv, hpre⟩)
  · intro hall
    unfold get_source_volume
    dsimp only
    have hf : (res.getD []).filter (fun v => pyStartsWith v.name image_name)
        = [] := by
      rw [List.filter_eq_nil_iff]
      intro a ha
      simp [hall a ha]
    rw [hf]
    rfl

/-- C7 (witness): on the concrete candidate list `[cand1, cand2, cand3]` with
image-name "image", the selected volume is `cand2`, whose name starts with
"image" and whose build value dominates the other prefix match `cand1`. -/
theorem c7_source_volume_selection_witness :
    pyStartsWith cand2.name "image" = true ∧ buildOf cand1 ≤ buildOf cand2 :=
  have h := (c7_source_volume_selection "image"
    (some [cand1, cand2, cand3])).1 cand2 (by decide)
  ⟨h.1, h.2 cand1 (by decide) (by decide)⟩

/-- C8: the resize step is a no-op on an equal flavor — `_resize_vm` invoked
when the remote server's current flavor equals the target flavor issues no
remote resize call, schedules no confirmation, and returns the descriptive
"already has flavor ... Skipping the resize." message (spec-modelled, the
resize module itself is not in the corpus; message as asserted by
`test_resize_vm.py`). -/
theorem c8_resize_noop_on_equal_flavor (instanceId flavor : Nat) :
    resize_vm instanceId flavor flavor
      = { resizeRequested := false, confirmScheduled := false,
          message := s!"Instance {instanceId} already has flavor {flavor}. Skipping the resize." } := by
  simp [resize_vm]

/-- C9: `delete_instance` and `delete_volume` are atomic on error — when the
connector's delete call reports `None` (unknown) or `False`, they return
`False` with the local record unchanged; the instance's
`marked_for_deletion` / the volume's `deleted` timestamp is written exactly
on the success answer. -/
theorem c9_delete_atomic_on_error :
    (∀ (inst : InstanceRec) (c : Cloud) (now : Nat),
      delete_instance inst { c with delete_server := Option.none } now
        = (inst, false))
    ∧ (∀ (inst : InstanceRec) (c : Cloud) (now : Nat),
      delete_instance inst { c with delete_server := some false } now
        = (inst, false))
    ∧ (∀ (inst : InstanceRec) (c : Cloud) (now : Nat),
      delete_instance inst { c with delete_server := some true } now
        = ({ inst with marked_for_deletion := some now }, true))
    ∧ (∀ (vol : VolumeRec) (c : Cloud) (now : Nat),
      delete_volume vol { c with delete_volume := Option.none } now
        = (vol, false))
    ∧ (∀ (vol : VolumeRec) (c : Cloud) (now : Nat),
      delete_volume vol { c with delete_volume := some false } now
        = (vol, false))
    ∧ (∀ (vol : VolumeRec) (c : Cloud) (now : Nat),
      delete_volume vol { c with delete_volume := some true } now
        = ({ vol with deleted := some now }, true)) := by
  refine ⟨?_, ?_, ?_, ?_, ?_, ?_⟩ <;> exact fun r cl n => rfl

/-- C10: `archive_volume_worker` stamps the volume's `marked_for_deletion`
with the current time before any cloud-connector call (the result does not
depend on the previous value of the field, the first mutation overwrites it)
and the stamp survives every outcome of the run — the volume-missing, the
wrong-volume-status and the backup-creation-failure paths included — so a
volume whose archive attempt failed stays hidden from later launches. -/
theorem c10_archive_marks_volume_for_deletion :
    (∀ (vol : VolumeRec) (vmS : Option VMStatusRec) (store : ExpStore)
       (c : Cloud) (now : Nat),
      (archive_volume_worker vol vmS store c now).vol.marked_for_deletion
        = some now)
    ∧ (∀ (vol : VolumeRec) (vmS : Option VMStatusRec) (store : ExpStore)
         (c : Cloud) (now : Nat),
      archive_volume_worker vol vmS store c now
        = archive_volume_worker { vol with marked_for_deletion := some now }
            vmS store c now) := by
  constructor
  · intro vol vmS store c now
    unfold archive_volume_worker
    by_cases h1 : c.is_volume_created = Option.none
        ∨ c.is_volume_created = some false
    · simp [h1, VolumeRec.error]
    · by_cases h2 : c.get_volume_status ≠ VolumeStatus.AVAILABLE
      · simp [h1, h2, VolumeRec.error]
      · cases hc : c.create_volume_backup with
        | none => simp [h1, h2, hc, VolumeRec.error]
        | some bid => simp [h1, h2, hc]
  · intro vol vmS store c now
    rfl
